import Mathlib

/-
  Shallow embedding of src/adapter.js (flic-button-adapter).

  The adapter drives, per peripheral address, a connection attempt whose
  promise races three channel signals (createResponse,
  connectionStatusChanged, removed) and a 30 s deadline timer, and on
  success constructs a FlicButton device registered with the gateway.
  Every definition below translates the JavaScript source line by line;
  JavaScript quirks (string comparisons, `this` binding inside plain
  functions, falsy strings, argument-count mismatches at call sites) are
  embedded exactly as the source has them, not as the spec wishes.
-/

namespace FlicAdapterModel

/-- A FlicConnectionChannel object, tracked by the multiset of event names
that currently have a listener attached via `cc.on(name, ...)`. -/
structure Channel where
  listeners : List String
deriving DecidableEq

/-- `cc.removeAllListeners(name)`: drops every listener registered for
that one event name, leaving the others. -/
def Channel.removeAll (cc : Channel) (name : String) : Channel :=
  { cc with listeners := cc.listeners.filter (fun l => l != name) }

/-- A FlicButton device as registered with the gateway by
`handleDeviceAdded`: its id `flic-<bdAddr>`, resolved display name, the
address, the listeners sitting on its connection channel at construction
time, and the initial property values (battery 100, pushed false). -/
structure DeviceRecord where
  id : String
  name : String
  bdAddr : String
  ccListeners : List String
  battery : Nat
  pushed : Bool
deriving DecidableEq

/-- The observable adapter-plus-client state: the device registry
(`this.devices`, keyed by id), the PendingSet (`this.connecting`), the
set of channels currently added to the FlicClient (identified by the
address they were created for), the battery-status listeners added to
the client (by address), the trust records deleted via
`client.deleteButton`, whether a scanner is registered, whether the
pairing deadline timer (`this.timeout`) is set, and the console logs. -/
structure GatewayState where
  devices : List DeviceRecord
  connecting : List String
  clientChannels : List String
  batteryListeners : List String
  deletedButtons : List String
  scannerActive : Bool
  pairingTimeout : Bool
  errorLog : List String
  warnLog : List String
deriving DecidableEq

/-- A fresh adapter with nothing registered. -/
def initGateway : GatewayState :=
  { devices := [], connecting := [], clientChannels := [], batteryListeners := [],
    deletedButtons := [], scannerActive := false, pairingTimeout := false,
    errorLog := [], warnLog := [] }

/-- The asynchronous events a pending connection attempt can observe:
the three channel signals its listeners subscribe to, and the firing of
the 30 s deadline timer armed by the createResponse handler. -/
inductive CCEvent
  | createResponse (error : String) (connectionStatus : String)
  | connectionStatusChanged (connectionStatus : String) (disconnectReason : String)
  | removed (removedReason : String)
  | timerFire
deriving DecidableEq

/-- How the attempt's promise settles: `resolve(cc)` or `reject(reason)`. -/
inductive Settle
  | resolved
  | rejectedWith (reason : String)
deriving DecidableEq

/-- Lifecycle of one timer handle produced by `setTimeout` in the
createResponse handler: still armed, already fired, or cancelled by the
`clearTimeout(timeout)` in the `finally` block. -/
inductive TimerStatus
  | live
  | fired
  | cleared
deriving DecidableEq

/-- Rewrite the last element of a timer-handle list; the `timeout` local
variable of `addDevice` always refers to the most recently armed timer. -/
def markLast (f : TimerStatus → TimerStatus) : List TimerStatus → List TimerStatus
  | [] => []
  | [t] => [f t]
  | t :: ts => t :: markLast f ts

/-- State of the attempt's promise while `await p` is suspended: whether
it has settled (first resolve/reject wins, later calls are no-ops), the
timers armed so far, and what the fired deadline-timer callbacks did
(removal requests issued to the client vs. TypeErrors thrown). -/
structure PromiseRun where
  settled : Option Settle
  timers : List TimerStatus
  timerRemoveRequests : Nat
  timerTypeErrors : Nat
deriving DecidableEq

/-- Promise state right after `addConnectionChannel`: unsettled, no timer. -/
def initPromiseRun : PromiseRun :=
  { settled := none, timers := [], timerRemoveRequests := 0, timerTypeErrors := 0 }

/-- The `client` property of the `this` seen by the deadline-timer
callback.  The callback at src/adapter.js:183 is a plain `function`
passed to `setTimeout`, so Node invokes it with `this` bound to the
Timeout object — not the adapter — and a Timeout has no `client` field:
the lookup yields `undefined`. -/
def setTimeoutThisClient : Option Unit := none

/-- One event delivered to the suspended attempt.  After settlement the
`finally` block has already torn the listeners down (and cleared the
armed timer), so later events are no-ops.  Before settlement this is a
direct transcription of the three `cc.on` handlers at
src/adapter.js:174-200 plus the deadline-timer callback:
  - createResponse: status "Ready" resolves; otherwise a non-"NoError"
    code rejects with "Too many pending connections"; otherwise a 30 s
    timer is armed (`timeout = setTimeout(...)`);
  - connectionStatusChanged: resolves when the status is "Ready";
  - removed: "RemovedByThisClient" rejects with "Timed out", any other
    reason rejects with that reason;
  - the deadline timer firing runs
    `this.client.removeConnectionChannel(cc)` — but `this.client` is
    `undefined` (see `setTimeoutThisClient`), so the callback throws a
    TypeError instead of requesting the removal. -/
def stepEvent (pr : PromiseRun) (e : CCEvent) : PromiseRun :=
  if pr.settled.isSome then pr
  else
    match e with
    | .createResponse error connectionStatus =>
        if connectionStatus == "Ready" then
          { pr with settled := some Settle.resolved }
        else if error != "NoError" then
          { pr with settled := some (Settle.rejectedWith "Too many pending connections") }
        else
          { pr with timers := pr.timers ++ [TimerStatus.live] }
    | .connectionStatusChanged connectionStatus _ =>
        if connectionStatus == "Ready" then
          { pr with settled := some Settle.resolved }
        else pr
    | .removed removedReason =>
        if removedReason == "RemovedByThisClient" then
          { pr with settled := some (Settle.rejectedWith "Timed out") }
        else
          { pr with settled := some (Settle.rejectedWith removedReason) }
    | .timerFire =>
        if pr.timers.getLast? = some TimerStatus.live then
          match setTimeoutThisClient with
          | some _ =>
              { pr with timers := markLast (fun t => if t = TimerStatus.live then TimerStatus.fired else t) pr.timers,
                        timerRemoveRequests := pr.timerRemoveRequests + 1 }
          | none =>
              { pr with timers := markLast (fun t => if t = TimerStatus.live then TimerStatus.fired else t) pr.timers,
                        timerTypeErrors := pr.timerTypeErrors + 1 }
        else pr

/-- Deliver a list of events to the suspended attempt, in order. -/
def runEvents (pr : PromiseRun) : List CCEvent → PromiseRun
  | [] => pr
  | e :: es => runEvents (stepEvent pr e) es

/-- The `if(timeout) clearTimeout(timeout)` in the `finally` block:
cancels the timer the `timeout` variable refers to — the last one armed
— if it has not fired yet. -/
def clearLastLive (timers : List TimerStatus) : List TimerStatus :=
  markLast (fun t => if t = TimerStatus.live then TimerStatus.cleared else t) timers

/-- JavaScript truthiness of the `name` value: `undefined` and the empty
string are falsy. -/
def jsTruthy : Option String → Bool
  | none => false
  | some s => !(s == "")

/-- The FlicButton constructor, src/adapter.js:26-83, declared
`constructor(adapter, bdAddr, cc, client, name)`.  The `client`
parameter is never used in the body.  Sets the display name from `name`
if truthy, else the default `Flic button <bdAddr>`; attaches the
buttonUpOrDown and buttonSingleOrDoubleClickOrHold listeners to the
channel; adds a battery-status listener to the client; and registers the
device via `handleDeviceAdded`.  Returns the new adapter state and the
channel with its listeners attached. -/
def flicButtonConstructor (st : GatewayState) (bdAddr : String) (cc : Channel)
    (client : Option String) (name : Option String) : GatewayState × Channel :=
  let devName := if jsTruthy name then name.getD "" else "Flic button " ++ bdAddr
  let cc2 : Channel :=
    { cc with listeners := cc.listeners ++ ["buttonUpOrDown", "buttonSingleOrDoubleClickOrHold"] }
  let dev : DeviceRecord :=
    { id := "flic-" ++ bdAddr, name := devName, bdAddr := bdAddr,
      ccListeners := cc2.listeners, battery := 100, pushed := false }
  ({ st with devices := st.devices ++ [dev],
             batteryListeners := st.batteryListeners ++ [bdAddr] }, cc2)

/-- Terminal shape of one `addDevice` activation: skipped at the dedup
gate, resolved Ready, promise rejected with a reason, or still suspended
at `await p` because no settling signal has arrived. -/
inductive AttemptOutcome
  | skipped
  | ready
  | failed (reason : String)
  | suspended
deriving DecidableEq

/-- Everything needed to resume an `addDevice` activation that is
suspended at `await p`: the closure's `bdAddr`, `name`, `cc` and the
promise state accumulated so far. -/
structure SuspendedAttempt where
  bdAddr : String
  name : Option String
  cc : Channel
  pr : PromiseRun
deriving DecidableEq

/-- Result of running (a prefix of) one `addDevice` activation: the
adapter state, the outcome, the channel object as last observed, the
timer handles with their final statuses, the counts of removal requests
and TypeErrors produced by fired deadline timers, and — when suspended —
the data needed to resume. -/
structure AddDeviceResult where
  state : GatewayState
  outcome : AttemptOutcome
  cc : Option Channel
  timers : List TimerStatus
  timerRemoveRequests : Nat
  timerTypeErrors : Nat
  pending : Option SuspendedAttempt
deriving DecidableEq

/-- The code of `addDevice` from `catch` onward, src/adapter.js:206-223,
run once `await p` completes with `out`.  The `catch` block (rejections
only) logs the reason and calls `client.removeConnectionChannel(cc)`;
the `finally` block clears the armed timer, removes all listeners for
the three attempt events from the channel, and deletes the address from
`this.connecting`.  Control then falls through — there is no `return` in
the `catch` — to `new FlicButton(this, bdAddr, cc, name)`: four
arguments against the five-parameter constructor, so the caller's `name`
binds to the unused `client` parameter and the constructor's `name` is
`undefined`. -/
def finishAttempt (st : GatewayState) (bdAddr : String) (name : Option String)
    (cc : Channel) (pr : PromiseRun) (out : Settle) : AddDeviceResult :=
  let st1 : GatewayState :=
    match out with
    | .resolved => st
    | .rejectedWith e =>
        { st with errorLog := st.errorLog ++ [e],
                  clientChannels := st.clientChannels.filter (fun a => a != bdAddr) }
  let timers := clearLastLive pr.timers
  let cc1 := ((cc.removeAll "createResponse").removeAll "connectionStatusChanged").removeAll "removed"
  let st2 : GatewayState := { st1 with connecting := st1.connecting.filter (fun a => a != bdAddr) }
  let res := flicButtonConstructor st2 bdAddr cc1 name none
  { state := res.1,
    outcome := match out with | .resolved => .ready | .rejectedWith r => .failed r,
    cc := some res.2,
    timers := timers,
    timerRemoveRequests := pr.timerRemoveRequests,
    timerTypeErrors := pr.timerTypeErrors,
    pending := none }

/-- `FlicAdapter.addDevice(bdAddr, name, tryToConnect)`,
src/adapter.js:165-224, with the attempt's asynchronous inputs supplied
as the ordered list `events`.  Returns early at the dedup gate when
`flic-<bdAddr>` is already a registered device id or the address is in
`this.connecting`.  Otherwise creates the channel; on the connecting
path it reserves the address, attaches the three listeners, submits the
channel to the client, and awaits the promise: if `events` never settle
it, the activation stays suspended (listeners attached, address still
reserved); once settled, `finishAttempt` runs.  With `tryToConnect`
false the channel is submitted and the constructor runs immediately. -/
def addDevice (st : GatewayState) (bdAddr : String) (name : Option String)
    (tryToConnect : Bool) (events : List CCEvent) : AddDeviceResult :=
  if st.devices.any (fun d => d.id == "flic-" ++ bdAddr) || st.connecting.contains bdAddr then
    { state := st, outcome := .skipped, cc := none, timers := [],
      timerRemoveRequests := 0, timerTypeErrors := 0, pending := none }
  else
    let cc : Channel := { listeners := [] }
    if tryToConnect then
      let st1 : GatewayState := { st with connecting := st.connecting ++ [bdAddr] }
      let cc1 : Channel :=
        { cc with listeners := cc.listeners ++ ["createResponse", "connectionStatusChanged", "removed"] }
      let st2 : GatewayState := { st1 with clientChannels := st1.clientChannels ++ [bdAddr] }
      let pr := runEvents initPromiseRun events
      match pr.settled with
      | some out => finishAttempt st2 bdAddr name cc1 pr out
      | none =>
          { state := st2, outcome := .suspended, cc := some cc1, timers := pr.timers,
            timerRemoveRequests := pr.timerRemoveRequests, timerTypeErrors := pr.timerTypeErrors,
            pending := some { bdAddr := bdAddr, name := name, cc := cc1, pr := pr } }
    else
      let st1 : GatewayState := { st with clientChannels := st.clientChannels ++ [bdAddr] }
      let res := flicButtonConstructor st1 bdAddr cc name none
      { state := res.1, outcome := .ready, cc := some res.2, timers := [],
        timerRemoveRequests := 0, timerTypeErrors := 0, pending := none }

/-- Deliver further events to a suspended `addDevice` activation.  The
adapter state `st` is whatever the event loop has made of it in the
meantime (e.g. after `cancelPairing`); the continuation after `await p`
never re-reads the dedup gate. -/
def resume (st : GatewayState) (sa : SuspendedAttempt) (more : List CCEvent) : AddDeviceResult :=
  let pr := runEvents sa.pr more
  match pr.settled with
  | some out => finishAttempt st sa.bdAddr sa.name sa.cc pr out
  | none =>
      { state := st, outcome := .suspended, cc := some sa.cc, timers := pr.timers,
        timerRemoveRequests := pr.timerRemoveRequests, timerTypeErrors := pr.timerTypeErrors,
        pending := some { sa with pr := pr } }

/-- `FlicButton.unload`, src/adapter.js:85-89: removes the
buttonUpOrDown listeners from the channel (and only those), removes the
connection channel from the client, and removes the battery-status
listener.  Returns the adapter state and the channel as `unload` leaves
it. -/
def unload (st : GatewayState) (dev : DeviceRecord) : GatewayState × Channel :=
  let cc := Channel.removeAll { listeners := dev.ccListeners } "buttonUpOrDown"
  ({ st with clientChannels := st.clientChannels.filter (fun a => a != dev.bdAddr),
             batteryListeners := st.batteryListeners.filter (fun a => a != dev.bdAddr) }, cc)

/-- `FlicAdapter.removeThing`, src/adapter.js:226-230: `thing.unload()`,
then `client.deleteButton(bdAddr)`, then `super.removeThing` which drops
the device from the registry. -/
def removeThing (st : GatewayState) (dev : DeviceRecord) : GatewayState × Channel :=
  let res := unload st dev
  let st2 : GatewayState := { res.1 with deletedButtons := res.1.deletedButtons ++ [dev.bdAddr] }
  let st3 : GatewayState := { st2 with devices := st2.devices.filter (fun d => d.id != dev.id) }
  (st3, res.2)

/-- `FlicAdapter.startPairing`, src/adapter.js:232-247: a no-op when
`this.timeout` is already set; otherwise registers a scanner and arms
the pairing deadline timer. -/
def startPairing (st : GatewayState) : GatewayState :=
  if st.pairingTimeout then st
  else { st with scannerActive := true, pairingTimeout := true }

/-- `FlicAdapter.cancelPairing`, src/adapter.js:249-254: removes the
scanner from the client, clears the pairing deadline timer and unsets
`this.timeout`, and clears the whole `connecting` set.  It touches
neither the device registry nor any connection channel. -/
def cancelPairing (st : GatewayState) : GatewayState :=
  { st with scannerActive := false, pairingTimeout := false, connecting := [] }

/-- The advertisementPacket handler installed by `startPairing`,
src/adapter.js:238-244: a private peripheral only gets a console warning
(`console.warn("Your button", name, "is private. ...")`); otherwise
`addDevice(bdAddr, name)` runs with its default `tryToConnect = true`. -/
def advertisementPacket (st : GatewayState) (bdAddr : String) (name : String)
    (rssi : Int) (isPrivate : Bool) (alreadyVerified : Bool)
    (events : List CCEvent) : AddDeviceResult :=
  if isPrivate then
    { state := { st with warnLog := st.warnLog ++
        ["Your button " ++ name ++ " is private. Hold down for 7 seconds to make it public."] },
      outcome := .skipped, cc := none, timers := [],
      timerRemoveRequests := 0, timerTypeErrors := 0, pending := none }
  else
    addDevice st bdAddr (some name) true events

end FlicAdapterModel

namespace FlicAdapterModel

/- Helper lemmas shared by the claim theorems. -/

theorem stepEvent_of_settled (pr : PromiseRun) (e : CCEvent)
    (h : pr.settled.isSome = true) : stepEvent pr e = pr := by
  simp [stepEvent, h]

theorem runEvents_of_settled (es : List CCEvent) :
    ∀ pr : PromiseRun, pr.settled.isSome = true → runEvents pr es = pr := by
  induction es with
  | nil => intro pr _; rfl
  | cons e es ih =>
      intro pr h
      simp only [runEvents, stepEvent_of_settled pr e h]
      exact ih pr h

theorem markLast_length (f : TimerStatus → TimerStatus) (l : List TimerStatus) :
    (markLast f l).length = l.length := by
  induction l with
  | nil => rfl
  | cons t ts ih =>
      cases ts with
      | nil => rfl
      | cons u us => simp only [markLast, List.length_cons] at ih ⊢; omega

/-- Number of createResponse signals in an event list; only those can
arm the deadline timer. -/
def countCreateResponses : List CCEvent → Nat
  | [] => 0
  | CCEvent.createResponse _ _ :: es => countCreateResponses es + 1
  | CCEvent.connectionStatusChanged _ _ :: es => countCreateResponses es
  | CCEvent.removed _ :: es => countCreateResponses es
  | CCEvent.timerFire :: es => countCreateResponses es

theorem stepEvent_timers_length (pr : PromiseRun) (e : CCEvent) :
    (stepEvent pr e).timers.length ≤ pr.timers.length + countCreateResponses [e] := by
  unfold stepEvent
  split
  · cases e <;> simp [countCreateResponses]
  · cases e with
    | createResponse error connectionStatus =>
        simp only [countCreateResponses]
        split
        · simp
        · split <;> simp
    | connectionStatusChanged connectionStatus disconnectReason =>
        simp only [countCreateResponses]
        split <;> simp
    | removed removedReason =>
        simp only [countCreateResponses]
        split <;> simp
    | timerFire =>
        simp only [countCreateResponses]
        split
        · split <;> simp [markLast_length]
        · simp

theorem countCreateResponses_cons (e : CCEvent) (es : List CCEvent) :
    countCreateResponses (e :: es) = countCreateResponses [e] + countCreateResponses es := by
  cases e <;> simp [countCreateResponses] <;> omega

theorem runEvents_timers_length (es : List CCEvent) :
    ∀ pr : PromiseRun, (runEvents pr es).timers.length ≤ pr.timers.length + countCreateResponses es := by
  induction es with
  | nil => intro pr; simp [runEvents, countCreateResponses]
  | cons e es ih =>
      intro pr
      have h1 := ih (stepEvent pr e)
      have h2 := stepEvent_timers_length pr e
      have h3 := countCreateResponses_cons e es
      simp only [runEvents]
      omega

theorem clearLastLive_no_live (l : List TimerStatus) (h : l.length ≤ 1) :
    ∀ t ∈ clearLastLive l, t ≠ TimerStatus.live := by
  match l with
  | [] => intro t ht; simp [clearLastLive, markLast] at ht
  | [x] =>
      intro t ht
      cases x <;> simp [clearLastLive, markLast] at ht <;> subst ht <;> simp
  | x :: y :: rest => simp at h

theorem finishAttempt_connecting (st : GatewayState) (bdAddr : String)
    (name : Option String) (cc : Channel) (pr : PromiseRun) (out : Settle) :
    (finishAttempt st bdAddr name cc pr out).state.connecting
      = st.connecting.filter (fun a => a != bdAddr) := by
  cases out <;> rfl

theorem finishAttempt_timers (st : GatewayState) (bdAddr : String)
    (name : Option String) (cc : Channel) (pr : PromiseRun) (out : Settle) :
    (finishAttempt st bdAddr name cc pr out).timers = clearLastLive pr.timers := by
  cases out <;> rfl

theorem finishAttempt_cc (st : GatewayState) (bdAddr : String)
    (name : Option String) (cc : Channel) (pr : PromiseRun) (out : Settle) :
    (finishAttempt st bdAddr name cc pr out).cc
      = some { listeners := (((cc.removeAll "createResponse").removeAll
          "connectionStatusChanged").removeAll "removed").listeners
            ++ ["buttonUpOrDown", "buttonSingleOrDoubleClickOrHold"] } := by
  cases out <;> rfl

end FlicAdapterModel

namespace FlicAdapterModel

theorem finishAttempt_outcome_rejected (st : GatewayState) (bdAddr : String)
    (name : Option String) (cc : Channel) (pr : PromiseRun) (r : String) :
    (finishAttempt st bdAddr name cc pr (Settle.rejectedWith r)).outcome
      = AttemptOutcome.failed r := rfl

theorem finishAttempt_outcome_resolved (st : GatewayState) (bdAddr : String)
    (name : Option String) (cc : Channel) (pr : PromiseRun) :
    (finishAttempt st bdAddr name cc pr Settle.resolved).outcome = AttemptOutcome.ready := rfl

theorem finishAttempt_clientChannels_rejected (st : GatewayState) (bdAddr : String)
    (name : Option String) (cc : Channel) (pr : PromiseRun) (r : String) :
    (finishAttempt st bdAddr name cc pr (Settle.rejectedWith r)).state.clientChannels
      = st.clientChannels.filter (fun a => a != bdAddr) := rfl

theorem finishAttempt_clientChannels_resolved (st : GatewayState) (bdAddr : String)
    (name : Option String) (cc : Channel) (pr : PromiseRun) :
    (finishAttempt st bdAddr name cc pr Settle.resolved).state.clientChannels
      = st.clientChannels := rfl

theorem finishAttempt_devices (st : GatewayState) (bdAddr : String)
    (name : Option String) (cc : Channel) (pr : PromiseRun) (out : Settle) :
    (finishAttempt st bdAddr name cc pr out).state.devices
      = st.devices ++
        [{ id := "flic-" ++ bdAddr, name := "Flic button " ++ bdAddr, bdAddr := bdAddr,
           ccListeners := (((cc.removeAll "createResponse").removeAll
             "connectionStatusChanged").removeAll "removed").listeners
               ++ ["buttonUpOrDown", "buttonSingleOrDoubleClickOrHold"],
           battery := 100, pushed := false }] := by
  cases out <;> rfl

/-- C4: `addDevice` is a no-op — the state is untouched and no channel
or attempt is created — whenever the address already has a registered
device (`flic-<bdAddr>` is a key of `this.devices`) or is already in the
PendingSet `this.connecting`; this gate keeps at most one attempt or
device per address. -/
theorem c4_addDevice_noop_when_registered_or_pending (st : GatewayState) (bdAddr : String)
    (name : Option String) (tryToConnect : Bool) (events : List CCEvent)
    (h : st.devices.any (fun d => d.id == "flic-" ++ bdAddr) = true
         ∨ st.connecting.contains bdAddr = true) :
    addDevice st bdAddr name tryToConnect events =
      { state := st, outcome := .skipped, cc := none, timers := [],
        timerRemoveRequests := 0, timerTypeErrors := 0, pending := none } := by
  have hcond : (st.devices.any (fun d => d.id == "flic-" ++ bdAddr)
      || st.connecting.contains bdAddr) = true := by
    rw [Bool.or_eq_true]
    exact h
  unfold addDevice
  simp only [hcond, if_true]

/-- Witness for C4 at a concrete state that already has the address in
the PendingSet. -/
theorem c4_witness :
    addDevice { initGateway with connecting := ["AA"] } "AA" none true [] =
      { state := { initGateway with connecting := ["AA"] }, outcome := .skipped, cc := none,
        timers := [], timerRemoveRequests := 0, timerTypeErrors := 0, pending := none } :=
  c4_addDevice_noop_when_registered_or_pending
    { initGateway with connecting := ["AA"] } "AA" none true [] (Or.inr (by decide))

/-- C3: on every terminal resolution of a connection attempt (resolve or
reject, any outcome), the `finally` block cancels the armed deadline
timer, removes the createResponse, connectionStatusChanged and removed
subscriptions from the channel, and deletes the address from the
PendingSet — so no attempt handler can fire afterwards.  The hypothesis
`countCreateResponses events ≤ 1` reflects that the daemon sends one
createResponse per added channel (only that signal arms a timer). -/
theorem c3_teardown_on_resolution (st : GatewayState) (bdAddr : String) (name : Option String)
    (events : List CCEvent) (out : Settle)
    (hguard : (st.devices.any (fun d => d.id == "flic-" ++ bdAddr)
               || st.connecting.contains bdAddr) = false)
    (hcr : countCreateResponses events ≤ 1)
    (hsettle : (runEvents initPromiseRun events).settled = some out) :
    bdAddr ∉ (addDevice st bdAddr name true events).state.connecting ∧
    (∀ t ∈ (addDevice st bdAddr name true events).timers, t ≠ TimerStatus.live) ∧
    (∀ c, (addDevice st bdAddr name true events).cc = some c →
      ("createResponse" ∉ c.listeners ∧ "connectionStatusChanged" ∉ c.listeners ∧
       "removed" ∉ c.listeners)) := by
  have hred : addDevice st bdAddr name true events =
      finishAttempt
        { st with connecting := st.connecting ++ [bdAddr],
                  clientChannels := st.clientChannels ++ [bdAddr] }
        bdAddr name { listeners := ["createResponse", "connectionStatusChanged", "removed"] }
        (runEvents initPromiseRun events) out := by
    unfold addDevice
    simp only [hguard, Bool.false_eq_true, if_false, if_true, hsettle, List.nil_append]
  refine ⟨?_, ?_, ?_⟩
  · rw [hred, finishAttempt_connecting]
    simp [List.mem_filter]
  · rw [hred, finishAttempt_timers]
    apply clearLastLive_no_live
    have h1 := runEvents_timers_length events initPromiseRun
    have h0 : initPromiseRun.timers.length = 0 := rfl
    omega
  · intro c hc
    rw [hred, finishAttempt_cc] at hc
    simp only [Option.some.injEq] at hc
    subst hc
    refine ⟨?_, ?_, ?_⟩ <;> decide

/-- Witness for C3: a concrete attempt resolved Ready by a
connectionStatusChanged signal. -/
theorem c3_witness :
    "AA" ∉ (addDevice initGateway "AA" none true
      [CCEvent.connectionStatusChanged "Ready" ""]).state.connecting ∧
    (∀ t ∈ (addDevice initGateway "AA" none true
      [CCEvent.connectionStatusChanged "Ready" ""]).timers, t ≠ TimerStatus.live) ∧
    (∀ c, (addDevice initGateway "AA" none true
      [CCEvent.connectionStatusChanged "Ready" ""]).cc = some c →
      ("createResponse" ∉ c.listeners ∧ "connectionStatusChanged" ∉ c.listeners ∧
       "removed" ∉ c.listeners)) :=
  c3_teardown_on_resolution initGateway "AA" none
    [CCEvent.connectionStatusChanged "Ready" ""] Settle.resolved
    (by decide) (by decide) (by decide)

end FlicAdapterModel

namespace FlicAdapterModel

/-- C6: a createResponse signal whose connection status is not "Ready"
and whose error code is not "NoError" makes the attempt reject with
"Too many pending connections"; the catch block releases the channel
back to the client, and no deadline timer is ever armed. -/
theorem c6_nonNoError_rejects (st : GatewayState) (bdAddr : String) (name : Option String)
    (error status : String) (rest : List CCEvent)
    (hguard : (st.devices.any (fun d => d.id == "flic-" ++ bdAddr)
               || st.connecting.contains bdAddr) = false)
    (hstatus : (status == "Ready") = false)
    (herror : (error != "NoError") = true) :
    (addDevice st bdAddr name true (CCEvent.createResponse error status :: rest)).outcome
        = AttemptOutcome.failed "Too many pending connections" ∧
    bdAddr ∉ (addDevice st bdAddr name true
        (CCEvent.createResponse error status :: rest)).state.clientChannels ∧
    (addDevice st bdAddr name true (CCEvent.createResponse error status :: rest)).timers = [] := by
  have hstep : stepEvent initPromiseRun (CCEvent.createResponse error status)
      = { settled := some (Settle.rejectedWith "Too many pending connections"),
          timers := [], timerRemoveRequests := 0, timerTypeErrors := 0 } := by
    simp [stepEvent, initPromiseRun, hstatus, herror]
  have hrun : runEvents initPromiseRun (CCEvent.createResponse error status :: rest)
      = { settled := some (Settle.rejectedWith "Too many pending connections"),
          timers := [], timerRemoveRequests := 0, timerTypeErrors := 0 } := by
    show runEvents (stepEvent initPromiseRun (CCEvent.createResponse error status)) rest = _
    rw [hstep]
    exact runEvents_of_settled rest _ rfl
  have hred : addDevice st bdAddr name true (CCEvent.createResponse error status :: rest) =
      finishAttempt
        { st with connecting := st.connecting ++ [bdAddr],
                  clientChannels := st.clientChannels ++ [bdAddr] }
        bdAddr name { listeners := ["createResponse", "connectionStatusChanged", "removed"] }
        { settled := some (Settle.rejectedWith "Too many pending connections"),
          timers := [], timerRemoveRequests := 0, timerTypeErrors := 0 }
        (Settle.rejectedWith "Too many pending connections") := by
    unfold addDevice
    simp only [hguard, Bool.false_eq_true, if_false, if_true, hrun, List.nil_append]
  refine ⟨?_, ?_, ?_⟩
  · rw [hred, finishAttempt_outcome_rejected]
  · rw [hred, finishAttempt_clientChannels_rejected]
    simp [List.mem_filter]
  · rw [hred, finishAttempt_timers]
    rfl

/-- Witness for C6: the daemon answers with a concrete non-NoError code
while the status is still "NotReady". -/
theorem c6_witness :
    (addDevice initGateway "AA" none true
        [CCEvent.createResponse "MaxPendingConnectionsReached" "NotReady"]).outcome
        = AttemptOutcome.failed "Too many pending connections" ∧
    "AA" ∉ (addDevice initGateway "AA" none true
        [CCEvent.createResponse "MaxPendingConnectionsReached" "NotReady"]).state.clientChannels ∧
    (addDevice initGateway "AA" none true
        [CCEvent.createResponse "MaxPendingConnectionsReached" "NotReady"]).timers = [] :=
  c6_nonNoError_rejects initGateway "AA" none "MaxPendingConnectionsReached" "NotReady" []
    (by decide) (by decide) (by decide)

/-- C10: in the createResponse handler the status check comes first, so
a response whose status is "Ready" resolves the attempt Ready whatever
the error code is (even a non-"NoError" one); the channel stays with the
client and is handed to device construction. -/
theorem c10_ready_status_wins (st : GatewayState) (bdAddr : String) (name : Option String)
    (error : String) (rest : List CCEvent)
    (hguard : (st.devices.any (fun d => d.id == "flic-" ++ bdAddr)
               || st.connecting.contains bdAddr) = false) :
    (addDevice st bdAddr name true (CCEvent.createResponse error "Ready" :: rest)).outcome
        = AttemptOutcome.ready ∧
    ((addDevice st bdAddr name true
        (CCEvent.createResponse error "Ready" :: rest)).state.devices.any
          (fun d => d.bdAddr == bdAddr)) = true ∧
    bdAddr ∈ (addDevice st bdAddr name true
        (CCEvent.createResponse error "Ready" :: rest)).state.clientChannels := by
  have hstep : stepEvent initPromiseRun (CCEvent.createResponse error "Ready")
      = { settled := some Settle.resolved, timers := [],
          timerRemoveRequests := 0, timerTypeErrors := 0 } := by
    simp [stepEvent, initPromiseRun]
  have hrun : runEvents initPromiseRun (CCEvent.createResponse error "Ready" :: rest)
      = { settled := some Settle.resolved, timers := [],
          timerRemoveRequests := 0, timerTypeErrors := 0 } := by
    show runEvents (stepEvent initPromiseRun (CCEvent.createResponse error "Ready")) rest = _
    rw [hstep]
    exact runEvents_of_settled rest _ rfl
  have hred : addDevice st bdAddr name true (CCEvent.createResponse error "Ready" :: rest) =
      finishAttempt
        { st with connecting := st.connecting ++ [bdAddr],
                  clientChannels := st.clientChannels ++ [bdAddr] }
        bdAddr name { listeners := ["createResponse", "connectionStatusChanged", "removed"] }
        { settled := some Settle.resolved, timers := [],
          timerRemoveRequests := 0, timerTypeErrors := 0 }
        Settle.resolved := by
    unfold addDevice
    simp only [hguard, Bool.false_eq_true, if_false, if_true, hrun, List.nil_append]
  refine ⟨?_, ?_, ?_⟩
  · rw [hred, finishAttempt_outcome_resolved]
  · rw [hred, finishAttempt_devices]
    simp
  · rw [hred, finishAttempt_clientChannels_resolved]
    simp

/-- Witness for C10: a response carrying both status "Ready" and a
non-"NoError" error code still produces the Ready outcome. -/
theorem c10_witness :
    (addDevice initGateway "AA" none true
        [CCEvent.createResponse "MaxPendingConnectionsReached" "Ready"]).outcome
        = AttemptOutcome.ready ∧
    ((addDevice initGateway "AA" none true
        [CCEvent.createResponse "MaxPendingConnectionsReached" "Ready"]).state.devices.any
          (fun d => d.bdAddr == "AA")) = true ∧
    "AA" ∈ (addDevice initGateway "AA" none true
        [CCEvent.createResponse "MaxPendingConnectionsReached" "Ready"]).state.clientChannels :=
  c10_ready_status_wins initGateway "AA" none "MaxPendingConnectionsReached" [] (by decide)

/-- C9: an advertisement from a peripheral reporting itself private only
appends the console warning; the adapter state is otherwise untouched,
no channel is created and `addDevice` never runs. -/
theorem c9_private_only_warns (st : GatewayState) (bdAddr name : String) (rssi : Int)
    (alreadyVerified : Bool) (events : List CCEvent) :
    advertisementPacket st bdAddr name rssi true alreadyVerified events =
      { state := { st with warnLog := st.warnLog ++
          ["Your button " ++ name ++ " is private. Hold down for 7 seconds to make it public."] },
        outcome := .skipped, cc := none, timers := [],
        timerRemoveRequests := 0, timerTypeErrors := 0, pending := none } := by
  rfl

/-- C7: `cancelPairing` removes the scanner, clears the pairing deadline
timer and empties the whole PendingSet, while touching neither the
channels added to the client nor the device registry; an attempt still
suspended at `await p` can settle Ready afterwards and then registers a
device. -/
theorem c7_cancelPairing_keeps_inflight (st : GatewayState) (sa : SuspendedAttempt)
    (hpend : sa.pr.settled = none) :
    (cancelPairing st).scannerActive = false ∧
    (cancelPairing st).pairingTimeout = false ∧
    (cancelPairing st).connecting = [] ∧
    (cancelPairing st).clientChannels = st.clientChannels ∧
    (cancelPairing st).devices = st.devices ∧
    (resume (cancelPairing st) sa [CCEvent.connectionStatusChanged "Ready" ""]).outcome
        = AttemptOutcome.ready ∧
    ((resume (cancelPairing st) sa
        [CCEvent.connectionStatusChanged "Ready" ""]).state.devices.any
          (fun d => d.bdAddr == sa.bdAddr)) = true := by
  have hstep : stepEvent sa.pr (CCEvent.connectionStatusChanged "Ready" "")
      = { sa.pr with settled := some Settle.resolved } := by
    simp [stepEvent, hpend]
  have hres : resume (cancelPairing st) sa [CCEvent.connectionStatusChanged "Ready" ""]
      = finishAttempt (cancelPairing st) sa.bdAddr sa.name sa.cc
          { sa.pr with settled := some Settle.resolved } Settle.resolved := by
    unfold resume
    simp only [runEvents, hstep]
  refine ⟨rfl, rfl, rfl, rfl, rfl, ?_, ?_⟩
  · rw [hres, finishAttempt_outcome_resolved]
  · rw [hres, finishAttempt_devices]
    simp

/-- Concrete state for the C7 witness: a pairing session is active and
the address "AA" is mid-attempt. -/
def c7exState : GatewayState :=
  { initGateway with connecting := ["AA"], clientChannels := ["AA"],
                     scannerActive := true, pairingTimeout := true }

/-- Concrete suspended attempt for the C7 witness. -/
def c7exAttempt : SuspendedAttempt :=
  { bdAddr := "AA", name := some "Button",
    cc := { listeners := ["createResponse", "connectionStatusChanged", "removed"] },
    pr := initPromiseRun }

/-- Witness for C7 at the concrete suspended attempt. -/
theorem c7_witness :
    (cancelPairing c7exState).scannerActive = false ∧
    (cancelPairing c7exState).pairingTimeout = false ∧
    (cancelPairing c7exState).connecting = [] ∧
    (cancelPairing c7exState).clientChannels = c7exState.clientChannels ∧
    (cancelPairing c7exState).devices = c7exState.devices ∧
    (resume (cancelPairing c7exState) c7exAttempt
        [CCEvent.connectionStatusChanged "Ready" ""]).outcome = AttemptOutcome.ready ∧
    ((resume (cancelPairing c7exState) c7exAttempt
        [CCEvent.connectionStatusChanged "Ready" ""]).state.devices.any
          (fun d => d.bdAddr == c7exAttempt.bdAddr)) = true :=
  c7_cancelPairing_keeps_inflight c7exState c7exAttempt rfl

end FlicAdapterModel

namespace FlicAdapterModel

/-- Placeholder record used only as the default for `List.headD`. -/
def defaultDevice : DeviceRecord :=
  { id := "", name := "", bdAddr := "", ccListeners := [], battery := 0, pushed := false }

/-- C1 divergence: the `catch` block at src/adapter.js:206-209 logs the
rejection and releases the channel but does not return, so control falls
through to `new FlicButton(...)`: on a failed attempt (here a rejected
createResponse) a device IS constructed and registered with the host —
with its channel already removed from the client — contradicting the
claim that no device is created on Rejected/TimedOut/RemovedOther. -/
theorem c1_device_registered_despite_failure :
    (addDevice initGateway "AA:BB" (some "Kitchen") true
      [CCEvent.createResponse "MaxPendingConnectionsReached" "NotReady"]).outcome
        = AttemptOutcome.failed "Too many pending connections" ∧
    (addDevice initGateway "AA:BB" (some "Kitchen") true
      [CCEvent.createResponse "MaxPendingConnectionsReached" "NotReady"]).state.clientChannels = [] ∧
    (addDevice initGateway "AA:BB" (some "Kitchen") true
      [CCEvent.createResponse "MaxPendingConnectionsReached" "NotReady"]).state.devices.length = 1 ∧
    ((addDevice initGateway "AA:BB" (some "Kitchen") true
      [CCEvent.createResponse "MaxPendingConnectionsReached" "NotReady"]).state.devices.any
        (fun d => d.bdAddr == "AA:BB")) = true := by
  decide

/-- C2 divergence: after createResponse("NoError", "NotReady") arms the
deadline timer, the timer firing does NOT request removal of the channel
— the callback's `this` is the Timeout object, `this.client` is
undefined, and a TypeError is thrown instead — so no
removed("RemovedByThisClient") echo ever arrives, the attempt stays
suspended (never TimedOut), the address stays in the PendingSet and the
channel stays with the client. -/
theorem c2_timer_callback_throws :
    (addDevice initGateway "AA:BB" none true
      [CCEvent.createResponse "NoError" "NotReady", CCEvent.timerFire]).outcome
        = AttemptOutcome.suspended ∧
    (addDevice initGateway "AA:BB" none true
      [CCEvent.createResponse "NoError" "NotReady", CCEvent.timerFire]).timerRemoveRequests = 0 ∧
    (addDevice initGateway "AA:BB" none true
      [CCEvent.createResponse "NoError" "NotReady", CCEvent.timerFire]).timerTypeErrors = 1 ∧
    (addDevice initGateway "AA:BB" none true
      [CCEvent.createResponse "NoError" "NotReady", CCEvent.timerFire]).state.connecting
        = ["AA:BB"] ∧
    (addDevice initGateway "AA:BB" none true
      [CCEvent.createResponse "NoError" "NotReady", CCEvent.timerFire]).state.clientChannels
        = ["AA:BB"] ∧
    (addDevice initGateway "AA:BB" none true
      [CCEvent.createResponse "NoError" "NotReady", CCEvent.timerFire]).state.devices = [] := by
  decide

/-- C5 divergence: register a button (attempt resolves Ready), then
`removeThing` it.  Registry, battery listener and client channel do
return to their pre-registration state, but `unload` at
src/adapter.js:85-89 removes only the buttonUpOrDown listeners: the
buttonSingleOrDoubleClickOrHold listener attached in the constructor is
left on the channel, contradicting the claim that every subscription
made at construction is removed at unregistration. -/
theorem c5_unload_leaks_click_listener :
    (addDevice initGateway "AA:BB" none true
      [CCEvent.connectionStatusChanged "Ready" ""]).state.devices.length = 1 ∧
    (removeThing (addDevice initGateway "AA:BB" none true
        [CCEvent.connectionStatusChanged "Ready" ""]).state
      ((addDevice initGateway "AA:BB" none true
        [CCEvent.connectionStatusChanged "Ready" ""]).state.devices.headD defaultDevice)).1.devices
        = [] ∧
    (removeThing (addDevice initGateway "AA:BB" none true
        [CCEvent.connectionStatusChanged "Ready" ""]).state
      ((addDevice initGateway "AA:BB" none true
        [CCEvent.connectionStatusChanged "Ready" ""]).state.devices.headD
          defaultDevice)).1.batteryListeners = [] ∧
    (removeThing (addDevice initGateway "AA:BB" none true
        [CCEvent.connectionStatusChanged "Ready" ""]).state
      ((addDevice initGateway "AA:BB" none true
        [CCEvent.connectionStatusChanged "Ready" ""]).state.devices.headD
          defaultDevice)).1.clientChannels = [] ∧
    (removeThing (addDevice initGateway "AA:BB" none true
        [CCEvent.connectionStatusChanged "Ready" ""]).state
      ((addDevice initGateway "AA:BB" none true
        [CCEvent.connectionStatusChanged "Ready" ""]).state.devices.headD
          defaultDevice)).1.connecting = [] ∧
    (removeThing (addDevice initGateway "AA:BB" none true
        [CCEvent.connectionStatusChanged "Ready" ""]).state
      ((addDevice initGateway "AA:BB" none true
        [CCEvent.connectionStatusChanged "Ready" ""]).state.devices.headD
          defaultDevice)).2.listeners = ["buttonSingleOrDoubleClickOrHold"] := by
  decide

/-- C8 divergence: `new FlicButton(this, bdAddr, cc, name)` at
src/adapter.js:223 passes four arguments to the five-parameter
constructor, so the discovered name "Kitchen button" binds to the unused
`client` parameter and the constructor's `name` is undefined: the device
registered after a Ready resolution carries the default name derived
from the address, not the discovered display name. -/
theorem c8_discovered_name_dropped :
    (addDevice initGateway "AA:BB" (some "Kitchen button") true
      [CCEvent.connectionStatusChanged "Ready" ""]).outcome = AttemptOutcome.ready ∧
    ((addDevice initGateway "AA:BB" (some "Kitchen button") true
      [CCEvent.connectionStatusChanged "Ready" ""]).state.devices.headD defaultDevice).name
        = "Flic button AA:BB" ∧
    ((addDevice initGateway "AA:BB" (some "Kitchen button") true
      [CCEvent.connectionStatusChanged "Ready" ""]).state.devices.headD defaultDevice).name
        ≠ "Kitchen button" := by
  decide

end FlicAdapterModel
